import Mathlib

/-!
Verification of the JVD review core (spaced-repetition scheduler and review
session) against its sources.  Datetimes are modelled as integer timestamps
(microseconds since the Unix epoch, UTC): Python `isoformat` strings of
timezone-aware datetimes compare in the same order as the timestamps they
encode, and `fromisoformat` is the inverse of `isoformat`.
-/

namespace JVD

/-- Learning state of a card, the `State` `IntEnum` of `src/pyfsrs/card.py`
(`Learning = 1`, `Review = 2`, `Relearning = 3`). -/
inductive State
  | Learning
  | Review
  | Relearning
deriving DecidableEq, Repr

/-- Integer value of a `State` member, as in the Python `IntEnum`. -/
def State.value : State → ℤ
  | .Learning => 1
  | .Review => 2
  | .Relearning => 3

/-- The `State(int)` enum constructor: recover a member from its value,
`none` models the `ValueError` Python raises on any other integer. -/
def State.ofValue : ℤ → Option State
  | 1 => some .Learning
  | 2 => some .Review
  | 3 => some .Relearning
  | _ => none

/-- The `Card` dataclass of `src/pyfsrs/card.py`.  `stability` and
`difficulty` are Python floats, modelled as rationals; `due` and
`last_review` are datetimes, modelled as integer timestamps. -/
structure Card where
  card_id : ℤ
  state : State
  step : Option ℤ
  stability : Option ℚ
  difficulty : Option ℚ
  due : ℤ
  last_review : Option ℤ
deriving DecidableEq, Repr

/-- The `Card.__init__` constructor.  `now` is the current UTC time, used for
the two defaults: a missing `card_id` becomes the epoch milliseconds of `now`
(`int(datetime.now(timezone.utc).timestamp() * 1000)`), and a missing `due`
becomes `now`.  A missing `step` is replaced by `0` exactly when the state is
`Learning`. -/
def cardInit (now : ℤ) (card_id : Option ℤ) (state : State) (step : Option ℤ)
    (stability : Option ℚ) (difficulty : Option ℚ) (due : Option ℤ)
    (last_review : Option ℤ) : Card :=
  { card_id := card_id.getD (now / 1000)
    state := state
    step := if state = State.Learning ∧ step = none then some 0 else step
    stability := stability
    difficulty := difficulty
    due := due.getD now
    last_review := last_review }

/-- A value of the JSON-serializable dictionary produced by `Card.to_dict`:
Python `None`, `int`, `float`, or the ISO-8601 string `isoformat` makes of
the datetime with timestamp `t` (`viso t`; such strings are nonempty and the
encoding is injective, with `fromisoformat` as inverse). -/
inductive Value
  | vnone
  | vint (n : ℤ)
  | vfloat (q : ℚ)
  | viso (t : ℤ)
deriving DecidableEq, Repr

/-- Python truthiness of a dictionary value: `None` is falsy, numbers are
falsy exactly at zero, and an `isoformat` string is nonempty hence truthy. -/
def Value.truthy : Value → Bool
  | .vnone => false
  | .vint n => n ≠ 0
  | .vfloat q => q ≠ 0
  | .viso _ => true

/-- Python `int(x)` applied to a dictionary value: identity on ints,
truncation toward zero on floats, a `TypeError` (`none`) otherwise. -/
def Value.pyIntCast : Value → Option ℤ
  | .vint n => some n
  | .vfloat q => some (if 0 ≤ q then ⌊q⌋ else ⌈q⌉)
  | _ => none

/-- Python `float(x)` applied to a dictionary value: identity on floats,
coercion on ints, an error (`none`) otherwise. -/
def Value.pyFloatCast : Value → Option ℚ
  | .vfloat q => some q
  | .vint n => some (n : ℚ)
  | _ => none

/-- Decode the `isoformat` string back to its timestamp, the
`datetime.fromisoformat` call of `Card.from_dict`. -/
def Value.fromIso : Value → Option ℤ
  | .viso t => some t
  | _ => none

/-- The dictionary produced by `Card.to_dict` (fixed key set). -/
structure CardDict where
  card_id : Value
  state : Value
  step : Value
  stability : Value
  difficulty : Value
  due : Value
  last_review : Value
deriving DecidableEq, Repr

/-- `Card.to_dict` of `src/pyfsrs/card.py`: ints stay ints, the state is
stored as its enum value, `due` is stored as `due.isoformat()`, and
`last_review` as `last_review.isoformat() if last_review else None`
(datetimes are always truthy). -/
def to_dict (c : Card) : CardDict :=
  { card_id := .vint c.card_id
    state := .vint c.state.value
    step := match c.step with
      | some n => .vint n
      | none => .vnone
    stability := match c.stability with
      | some q => .vfloat q
      | none => .vnone
    difficulty := match c.difficulty with
      | some q => .vfloat q
      | none => .vnone
    due := .viso c.due
    last_review := match c.last_review with
      | some t => .viso t
      | none => .vnone }

/-- Reading of the `step` entry in `Card.from_dict`: the value is passed
through unchanged, so only an int or `None` can end up in the `step` field
(only those arise from `to_dict`). -/
def readStep : Value → Option (Option ℤ)
  | .vint n => some (some n)
  | .vnone => some none
  | _ => none

/-- The `float(source_dict[k]) if source_dict[k] else None` expression of
`Card.from_dict` (Python truthiness guard around `float`). -/
def readOptFloat (v : Value) : Option (Option ℚ) :=
  if v.truthy then v.pyFloatCast.map some else some none

/-- The `fromisoformat(source_dict[k]) if source_dict[k] else None`
expression of `Card.from_dict`. -/
def readOptIso (v : Value) : Option (Option ℤ) :=
  if v.truthy then v.fromIso.map some else some none

/-- `Card.from_dict` of `src/pyfsrs/card.py`: `card_id` and `state` go
through `int(...)`, `step` is passed through unchanged, `stability` and
`difficulty` go through `float(...) if source_dict[k] else None` (Python
truthiness), `due` through `fromisoformat`, `last_review` through
`fromisoformat(...) if source_dict[k] else None`; the fields are then handed
to the `Card` constructor (whose time-dependent defaults are not reached,
since `card_id` and `due` are always supplied).  `none` models a raised
exception. -/
def from_dict (d : CardDict) : Option Card := do
  let cid ← d.card_id.pyIntCast
  let sv ← d.state.pyIntCast
  let st ← State.ofValue sv
  let step ← readStep d.step
  let stability ← readOptFloat d.stability
  let difficulty ← readOptFloat d.difficulty
  let due ← d.due.fromIso
  let last_review ← readOptIso d.last_review
  some (cardInit 0 (some cid) st step stability difficulty (some due) last_review)

/-- Hard audio size limit of `src/web/review_processing.py`
(`AUDIO_SIZE_LIMIT_KB = 1000`). -/
def AUDIO_SIZE_LIMIT_KB : ℚ := 1000

/-- The method `AnswerValidator.validate_audio_size` of
`src/web/review_processing.py`: the size in KB is `len(audio_bytes) / 1024`
(Python float arithmetic, exact at these magnitudes, modelled in the
rationals); above the limit it returns `(False, message)`, otherwise
`(True, None)` — the 200 KB advisory `st.warning` does not change the
result.  The message is an f-string naming the size; it is modelled by a
fixed string. -/
def validate_audio_size (audioLen : ℕ) : Bool × Option String :=
  if AUDIO_SIZE_LIMIT_KB < (audioLen : ℚ) / 1024 then
    (false, some "audio file exceeds the size limit")
  else (true, none)

/-- Result of `AudioProcessor.transcribe_audio`: the `RuntimeError` raised
locally by the size check (`tooLarge`), an empty transcription, a failure of
the remote call, or the transcribed text. -/
inductive TranscribeOutcome
  | ok (text : String)
  | tooLarge (msg : String)
  | emptyResult
  | remoteFailure (msg : String)
deriving DecidableEq, Repr

/-- The method `AudioProcessor.transcribe_audio` of
`src/web/review_processing.py`; `remote` models the Whisper transcription
API call (error value = exception text).  The second component counts how
many times the remote service was invoked. -/
def transcribe_audio (remote : ℕ → Except String String) (audioLen : ℕ) :
    TranscribeOutcome × ℕ :=
  match validate_audio_size audioLen with
  | (false, msg) => (.tooLarge (msg.getD ""), 0)
  | (true, _) =>
    match remote audioLen with
    | .error e => (.remoteFailure e, 1)
    | .ok t => if t = "" then (.emptyResult, 1) else (.ok t, 1)

/-- A row of the `user_card` table of `src/db/db_word.py` (the columns the
review flow touches; `state` is stored as the string of the enum value,
modelled by the integer itself, and the timestamp columns hold `isoformat`
strings, modelled by timestamps — ISO strings of a fixed format compare in
timestamp order). -/
structure Row where
  id : ℤ
  user_id : ℤ
  typ : String
  key : String
  state : ℤ
  step : Option ℤ
  stability : Option ℚ
  difficulty : Option ℚ
  due : Option ℤ
  last_review : Option ℤ
deriving DecidableEq, Repr

/-- The filter part of the `get_due_card` query of `src/db/db_word.py`:
rows of this user, of type JPWord, with `due` strictly earlier than `now`
(`.lt("due", now)`; a SQL null `due` never satisfies `lt`). -/
def matchesDueQuery (userId now : ℤ) (r : Row) : Bool :=
  r.user_id == userId && r.typ == "JPWord" &&
    (match r.due with
     | some d => decide (d < now)
     | none => false)

/-- Sort key for `.order("due")`: ascending by the due column, SQL default
of nulls last. -/
def dueKey (r : Row) : ℤ ×ₗ ℤ :=
  toLex (match r.due with
    | some d => (0, d)
    | none => (1, 0))

/-- Row comparison realizing the ascending `due` ordering of the query. -/
def dueLe (a b : Row) : Prop := dueKey a ≤ dueKey b

instance : DecidableRel dueLe := fun a b =>
  inferInstanceAs (Decidable (dueKey a ≤ dueKey b))

instance : IsTotal Row dueLe := ⟨fun a b => le_total (dueKey a) (dueKey b)⟩

instance : IsTrans Row dueLe := ⟨fun _ _ _ hab hbc => le_trans hab hbc⟩

/-- The function `get_due_card` of `src/db/db_word.py`: select the rows of
this user with type JPWord and `due < now`, order by `due` ascending, limit
1.  The table contents and `now` are explicit parameters; on a query
exception the Python function returns `[]`, which the claim does not
concern. -/
def get_due_card (userId now : ℤ) (table : List Row) : List Row :=
  ((table.filter (matchesDueQuery userId now)).insertionSort dueLe).take 1

/-- Review workflow states of `src/web/review.py` (the values of the
`review_state` session key). -/
inductive RState
  | question
  | answer
  | submitting
deriving DecidableEq, Repr

/-- The four labels of the rating segmented control, the keys of
`RATING_DICT` in `src/web/review.py` (emoji-decorated strings, modelled as
an enumeration). -/
inductive RatingLabel
  | again
  | hard
  | good
  | easy
deriving DecidableEq, Repr

/-- Modelled from the spec: the `Rating` enum of `src/pyfsrs/review_log.py`
(imported by `review.py` but absent from the repository): the four recall
qualities `Again | Hard | Good | Easy` in ascending order. -/
inductive Rating
  | Again
  | Hard
  | Good
  | Easy
deriving DecidableEq, Repr

/-- The `RATING_DICT` mapping of `src/web/review.py`, from control label to
`Rating`. -/
def RATING_DICT : RatingLabel → Rating
  | .again => .Again
  | .hard => .Hard
  | .good => .Good
  | .easy => .Easy

/-- The question/answer/hints triple (`ReverseTranslationQuestion` of
`src/pyfsrs/card.py`). -/
structure QA where
  question : String
  answer : String
  hints : String
deriving DecidableEq, Repr

/-- The value of the `current_card` session key after initialization: the
fetched row merged with the hydrated card (the `jpword` entry, whose
word-JSON side data is not modelled) and the generated question (`qa`). -/
structure CurrentCard where
  row : Row
  card : Card
  word : String
  qa : QA
deriving DecidableEq, Repr

/-- The Streamlit `st.session_state` keys the review page uses; `none`
models an absent key, and `your_voice_answer` holds the byte length of a
recorded audio answer when one is present. -/
structure SessionState where
  review_state : Option RState
  current_card : Option CurrentCard
  your_answer : Option String
  your_voice_answer : Option ℕ
  ai_review : Option String
  has_ai_review : Bool
  review_difficulty : Option RatingLabel
  due_review_count : Option ℤ
deriving DecidableEq, Repr

/-- Result of one execution of the answer-state entry logic: the new
session state, how many grading and transcription collaborator calls were
made, and whether the run was halted by `st.stop()` (oversized audio). -/
structure AnswerEntryOut where
  state : SessionState
  gradeCalls : ℕ
  transcribeCalls : ℕ
  stopped : Bool
deriving DecidableEq, Repr

/-- The `has_ai_review`-guarded entry logic of the answer branch of
`src/web/review.py` (lines 145 to 169): when the flag is unset, an
available voice answer is size-checked (`st.stop()` on a file over 1000 KB)
and transcribed into `your_answer`, the AI review of `your_answer` is
obtained from the grading collaborator, cached in `ai_review`, and the flag
is set; when the flag is set, nothing is called. -/
def answerEntry (transcriber : ℕ → String) (grader : String → String)
    (s : SessionState) : AnswerEntryOut :=
  if s.has_ai_review then ⟨s, 0, 0, false⟩
  else
    match s.your_voice_answer with
    | some audioLen =>
      if 1000 < (audioLen : ℚ) / 1024 then ⟨s, 0, 0, true⟩
      else
        let s1 := { s with your_answer := some (transcriber audioLen) }
        ⟨{ s1 with
            ai_review := some (grader (s1.your_answer.getD ""))
            has_ai_review := true }, 1, 1, false⟩
    | none =>
      ⟨{ s with
          ai_review := some (grader (s.your_answer.getD ""))
          has_ai_review := true }, 1, 0, false⟩

/-- Total number of grading calls issued by `n` consecutive executions of
the answer-state entry logic (the host UI may redraw the state many times
before the learner acts). -/
def answerEntryGradeCalls (transcriber : ℕ → String) (grader : String → String) :
    ℕ → SessionState → ℕ
  | 0, _ => 0
  | n + 1, s =>
    (answerEntry transcriber grader s).gradeCalls +
      answerEntryGradeCalls transcriber grader n (answerEntry transcriber grader s).state

/-- The column values the submitting branch passes to
`update_user_word_card`: `state` as `str(int(state))` (modelled by the enum
value), `due` as `due.isoformat() if due else None` (a datetime is always
truthy), `last_review` as `review_datetime.isoformat()`. -/
structure PersistPayload where
  word : String
  state_value : ℤ
  step : Option ℤ
  stability : Option ℚ
  difficulty : Option ℚ
  due : Option ℤ
  last_review : ℤ
deriving DecidableEq, Repr

/-- The toast the submitting branch shows: on success either the message
with the remaining-card count or the session-completed message, on failure
the error message. -/
inductive Toast
  | successRemaining (msg : String) (remaining : ℤ)
  | completed
  | failure (msg : String)
deriving DecidableEq, Repr

/-- Line 247 of `src/web/review.py`: the due-review count update
`max(st.session_state.get("due_review_count", 0) - 1, 0)`. -/
def updatedDueReviewCount (n : Option ℤ) : ℤ := max (n.getD 0 - 1) 0

/-- The submitting branch of `src/web/review.py` (lines 229 to 259): look
up the selected rating (a missing key raises), reschedule the current card
(`reviewFn` stands for `Scheduler.review_card`, whose module is absent from
the repository; its `ReviewLog` output is unused by this branch), write the
updated fields through `update_user_word_card` (`persist` returns its
`(success, msg)` pair and never raises), update the due-review count, toast
the result, and call `reset_review_session`, which deletes `review_state`,
`current_card` and `your_answer` and reruns.  The error case models a
`KeyError` escaping the script run. -/
def submittingStep (reviewFn : Card → Rating → ℤ → Card)
    (persist : PersistPayload → Bool × String) (now : ℤ) (s : SessionState) :
    Except String (SessionState × Toast) :=
  match s.review_difficulty with
  | none => .error "KeyError: review_difficulty"
  | some label =>
    match s.current_card with
    | none => .error "KeyError: current_card"
    | some cc =>
      let rating := RATING_DICT label
      let reviewed := reviewFn cc.card rating now
      let res := persist {
        word := cc.word
        state_value := reviewed.state.value
        step := reviewed.step
        stability := reviewed.stability
        difficulty := reviewed.difficulty
        due := some reviewed.due
        last_review := now }
      let newCount := updatedDueReviewCount s.due_review_count
      let toast := if res.1 then
          (if 0 < newCount then Toast.successRemaining res.2 newCount
           else Toast.completed)
        else Toast.failure res.2
      .ok ({ s with
          due_review_count := some newCount
          review_state := none
          current_card := none
          your_answer := none }, toast)

/-- Widget values and submit buttons of one Streamlit run of the review
page. -/
structure UserEvents where
  text : Option String
  voice : Option ℕ
  checkAnswer : Bool
  submitRating : Bool
  rating : RatingLabel
deriving DecidableEq, Repr

/-- Counts of collaborator calls one script run performs. -/
structure Calls where
  questionGen : ℕ
  transcribe : ℕ
  grade : ℕ
  persist : ℕ
deriving DecidableEq, Repr

/-- User-visible outcome of one script run: the nothing-due success message
(`st.success` followed by `st.stop()`), an exception escaping the run, or a
normal render. -/
inductive RunOutcome
  | nothingDue
  | errorHalt (msg : String)
  | rendered
deriving DecidableEq, Repr

/-- Hydration of the fetched row into the card the initialization block of
`review.py` builds (dataclass fields only; the state column is decoded to
the enum, which only affects the constructor's step defaulting, not the
nothing-due path the claims concern). -/
def hydrateRow (r : Row) : Card :=
  cardInit 0 (some r.id) ((State.ofValue r.state).getD State.Learning) r.step
    r.stability r.difficulty r.due r.last_review

/-- The question branch of `src/web/review.py` (lines 73 to 129): the form
widgets write their values into the `your_answer` and `your_voice_answer`
keys; on Check Answer with neither text nor voice provided, a warning is
shown and the run stops; otherwise the state moves to `answer` and the page
reruns. -/
def questionBranch (evts : UserEvents) (s : SessionState) :
    SessionState × RunOutcome :=
  let s1 := { s with
      your_answer := some (evts.text.getD "")
      your_voice_answer := evts.voice }
  if evts.checkAnswer then
    if (evts.text.getD "").trim = "" ∧ evts.voice = none then (s1, .rendered)
    else ({ s1 with review_state := some RState.answer }, .rendered)
  else (s1, .rendered)

/-- The answer branch of `src/web/review.py` (lines 131 to 227) followed,
in the same run, by the submitting branch when the rating form was
submitted: the entry logic runs first (possibly stopping the run), the
segmented control writes the selected rating, and Submit and Continue sets
`review_state` to `submitting`, which the next top-level `if` of the same
script run then executes. -/
def answerThenSubmit (transcriber : ℕ → String) (grader : String → String)
    (reviewFn : Card → Rating → ℤ → Card)
    (persist : PersistPayload → Bool × String) (now : ℤ) (evts : UserEvents)
    (s : SessionState) : SessionState × Calls × RunOutcome :=
  let ae := answerEntry transcriber grader s
  if ae.stopped then (ae.state, ⟨0, ae.transcribeCalls, ae.gradeCalls, 0⟩, .rendered)
  else
    let s1 := { ae.state with review_difficulty := some evts.rating }
    if evts.submitRating then
      match submittingStep reviewFn persist now
          { s1 with review_state := some RState.submitting } with
      | .ok (s2, _) => (s2, ⟨0, ae.transcribeCalls, ae.gradeCalls, 1⟩, .rendered)
      | .error e => (s1, ⟨0, ae.transcribeCalls, ae.gradeCalls, 0⟩, .errorHalt e)
    else (s1, ⟨0, ae.transcribeCalls, ae.gradeCalls, 0⟩, .rendered)

/-- Dispatch of the three `review_state`-guarded branches of one script
run, entered after the initialization block. -/
def runAfterInit (transcriber : ℕ → String) (grader : String → String)
    (reviewFn : Card → Rating → ℤ → Card)
    (persist : PersistPayload → Bool × String) (now : ℤ) (evts : UserEvents)
    (s : SessionState) : SessionState × Calls × RunOutcome :=
  match s.review_state with
  | some .question =>
    let q := questionBranch evts s
    (q.1, ⟨0, 0, 0, 0⟩, q.2)
  | some .answer => answerThenSubmit transcriber grader reviewFn persist now evts s
  | some .submitting =>
    match submittingStep reviewFn persist now s with
    | .ok (s2, _) => (s2, ⟨0, 0, 0, 1⟩, .rendered)
    | .error e => (s, ⟨0, 0, 0, 0⟩, .errorHalt e)
  | none => (s, ⟨0, 0, 0, 0⟩, .rendered)

/-- One run of the review page script `src/web/review.py`, top to bottom:
the initialization block (lines 35 to 71) runs when the `review_state` key
is absent — an empty fetch result shows the completion message and stops
the run (lines 35 to 39), otherwise the question is generated and the
session keys are set — and the `review_state`-guarded branches follow.
`fetched` is the `get_due_card` result for this learner. -/
def scriptRun (qgen : String → QA) (transcriber : ℕ → String)
    (grader : String → String) (reviewFn : Card → Rating → ℤ → Card)
    (persist : PersistPayload → Bool × String) (now : ℤ)
    (fetched : List Row) (evts : UserEvents) (s : SessionState) :
    SessionState × Calls × RunOutcome :=
  match s.review_state with
  | none =>
    match fetched with
    | [] => (s, ⟨0, 0, 0, 0⟩, .nothingDue)
    | r :: _ =>
      let s1 := { s with
          review_state := some RState.question
          current_card := some ⟨r, hydrateRow r, r.key, qgen r.key⟩
          your_answer := some ""
          has_ai_review := false }
      let out := runAfterInit transcriber grader reviewFn persist now evts s1
      (out.1, { out.2.1 with questionGen := out.2.1.questionGen + 1 }, out.2.2)
  | some _ => runAfterInit transcriber grader reviewFn persist now evts s

/-- Total collaborator calls (question generation, transcription, grading,
persistence) over `n` consecutive runs of the script with the same fetch
result, the events of run `i` given by `evtsSeq i`. -/
def scriptRunTotalCalls (qgen : String → QA) (transcriber : ℕ → String)
    (grader : String → String) (reviewFn : Card → Rating → ℤ → Card)
    (persist : PersistPayload → Bool × String) (now : ℤ)
    (fetched : List Row) (evtsSeq : ℕ → UserEvents) :
    ℕ → SessionState → ℕ
  | 0, _ => 0
  | n + 1, s =>
    let out := scriptRun qgen transcriber grader reviewFn persist now fetched
      (evtsSeq n) s
    (out.2.1.questionGen + out.2.1.transcribe + out.2.1.grade + out.2.1.persist) +
      scriptRunTotalCalls qgen transcriber grader reviewFn persist now fetched
        evtsSeq n out.1

/-- Modelled from the spec: the scheduler error cases of §4.1 — a review
strictly earlier than the card's `last_review` is rejected
(`NonMonotonicReview`); an `InvalidRating` cannot arise in the embedding
because `Rating` is the four-valued enum. -/
inductive SchedError
  | nonMonotonicReview
deriving DecidableEq, Repr

/-- Modelled from the spec: the `ReviewLog` record produced by the Scheduler
(`src/pyfsrs/review_log.py` is absent from the repository) — the rating, the
review datetime, and the recommended pre-update snapshot. -/
structure ReviewLog where
  rating : Rating
  review_datetime : ℤ
  state_before : State
  due_before : ℤ
deriving DecidableEq, Repr

/-- Modelled from the spec: `SchedulerConfig` of §4.1 for the Scheduler of
`src/pyfsrs/scheduler.py`, which `review.py` imports but which is absent
from the repository.  Durations and timestamps share one integer time unit;
the numeric FSRS formulas (initial stability and difficulty, lapse and
growth updates, the retention-driven interval) are supplied by an external
library per §9 and appear as configuration functions: `next_stability`
takes the current stability, difficulty, elapsed time since the last review
and the rating; `next_interval` turns a stability into the interval whose
predicted recall equals `desired_retention`. -/
structure SchedulerConfig where
  desired_retention : ℚ
  enable_fuzzing : Bool
  fuzz_factor : ℚ
  learning_steps : List ℤ
  relearning_steps : List ℤ
  initial_stability : Rating → ℚ
  initial_difficulty : Rating → ℚ
  lapse_stability : ℚ → ℚ
  lapse_difficulty : ℚ → ℚ
  next_stability : ℚ → ℚ → ℤ → Rating → ℚ
  next_difficulty : ℚ → Rating → ℚ
  next_interval : ℚ → ℤ

/-- Modelled from the spec: when fuzzing is enabled, the computed interval
is jittered by the bounded multiplicative fuzz factor (§4.1). -/
def fuzzedInterval (cfg : SchedulerConfig) (interval : ℤ) : ℤ :=
  if cfg.enable_fuzzing then ⌊cfg.fuzz_factor * (interval : ℚ)⌋ else interval

/-- Modelled from the spec: the per-`(state, rating)` transition table of
§4.1.  Every transition sets `last_review = now`; steps index the configured
learning and relearning sequences, promotion to Review happens when a
sequence is exhausted (or directly on Easy), a Review lapse moves to
Relearning with the lapse formulas, and a Review success recomputes
stability and difficulty and schedules `now + interval(stability)`, fuzzed
when enabled. -/
def scheduleTransition (cfg : SchedulerConfig) (card : Card) (rating : Rating)
    (now : ℤ) : Card :=
  match card.state, rating with
  | State.Learning, Rating.Again =>
    { card with
        step := some 0
        due := now + cfg.learning_steps.getD 0 0
        last_review := some now }
  | State.Learning, Rating.Hard =>
    { card with
        due := now + cfg.learning_steps.getD (card.step.getD 0).toNat 0
        last_review := some now }
  | State.Learning, Rating.Good =>
    if (card.step.getD 0).toNat + 1 < cfg.learning_steps.length then
      { card with
          step := some ((card.step.getD 0) + 1)
          due := now + cfg.learning_steps.getD ((card.step.getD 0).toNat + 1) 0
          last_review := some now }
    else
      { card with
          state := State.Review
          step := none
          stability := some (cfg.initial_stability Rating.Good)
          difficulty := some (cfg.initial_difficulty Rating.Good)
          due := now + cfg.next_interval (cfg.initial_stability Rating.Good)
          last_review := some now }
  | State.Learning, Rating.Easy =>
    { card with
        state := State.Review
        step := none
        stability := some (cfg.initial_stability Rating.Easy)
        difficulty := some (cfg.initial_difficulty Rating.Easy)
        due := now + cfg.next_interval (cfg.initial_stability Rating.Easy)
        last_review := some now }
  | State.Review, Rating.Again =>
    { card with
        state := State.Relearning
        step := some 0
        stability := some (cfg.lapse_stability
          (card.stability.getD (cfg.initial_stability Rating.Again)))
        difficulty := some (cfg.lapse_difficulty
          (card.difficulty.getD (cfg.initial_difficulty Rating.Again)))
        due := now + cfg.relearning_steps.getD 0 0
        last_review := some now }
  | State.Review, Rating.Hard =>
    { card with
        stability := some (cfg.next_stability
          (card.stability.getD (cfg.initial_stability Rating.Hard))
          (card.difficulty.getD (cfg.initial_difficulty Rating.Hard))
          (now - card.last_review.getD now) Rating.Hard)
        difficulty := some (cfg.next_difficulty
          (card.difficulty.getD (cfg.initial_difficulty Rating.Hard)) Rating.Hard)
        due := now + fuzzedInterval cfg (cfg.next_interval (cfg.next_stability
          (card.stability.getD (cfg.initial_stability Rating.Hard))
          (card.difficulty.getD (cfg.initial_difficulty Rating.Hard))
          (now - card.last_review.getD now) Rating.Hard))
        last_review := some now }
  | State.Review, Rating.Good =>
    { card with
        stability := some (cfg.next_stability
          (card.stability.getD (cfg.initial_stability Rating.Good))
          (card.difficulty.getD (cfg.initial_difficulty Rating.Good))
          (now - card.last_review.getD now) Rating.Good)
        difficulty := some (cfg.next_difficulty
          (card.difficulty.getD (cfg.initial_difficulty Rating.Good)) Rating.Good)
        due := now + fuzzedInterval cfg (cfg.next_interval (cfg.next_stability
          (card.stability.getD (cfg.initial_stability Rating.Good))
          (card.difficulty.getD (cfg.initial_difficulty Rating.Good))
          (now - card.last_review.getD now) Rating.Good))
        last_review := some now }
  | State.Review, Rating.Easy =>
    { card with
        stability := some (cfg.next_stability
          (card.stability.getD (cfg.initial_stability Rating.Easy))
          (card.difficulty.getD (cfg.initial_difficulty Rating.Easy))
          (now - card.last_review.getD now) Rating.Easy)
        difficulty := some (cfg.next_difficulty
          (card.difficulty.getD (cfg.initial_difficulty Rating.Easy)) Rating.Easy)
        due := now + fuzzedInterval cfg (cfg.next_interval (cfg.next_stability
          (card.stability.getD (cfg.initial_stability Rating.Easy))
          (card.difficulty.getD (cfg.initial_difficulty Rating.Easy))
          (now - card.last_review.getD now) Rating.Easy))
        last_review := some now }
  | State.Relearning, Rating.Again =>
    { card with
        step := some 0
        due := now + cfg.relearning_steps.getD 0 0
        last_review := some now }
  | State.Relearning, Rating.Hard =>
    if (card.step.getD 0).toNat + 1 < cfg.relearning_steps.length then
      { card with
          step := some ((card.step.getD 0) + 1)
          due := now + cfg.relearning_steps.getD ((card.step.getD 0).toNat + 1) 0
          last_review := some now }
    else
      { card with
          state := State.Review
          step := none
          due := now + cfg.next_interval
            (card.stability.getD (cfg.initial_stability Rating.Hard))
          last_review := some now }
  | State.Relearning, Rating.Good =>
    if (card.step.getD 0).toNat + 1 < cfg.relearning_steps.length then
      { card with
          step := some ((card.step.getD 0) + 1)
          due := now + cfg.relearning_steps.getD ((card.step.getD 0).toNat + 1) 0
          last_review := some now }
    else
      { card with
          state := State.Review
          step := none
          due := now + cfg.next_interval
            (card.stability.getD (cfg.initial_stability Rating.Good))
          last_review := some now }
  | State.Relearning, Rating.Easy =>
    { card with
        state := State.Review
        step := none
        due := now + cfg.next_interval
          (card.stability.getD (cfg.initial_stability Rating.Easy))
        last_review := some now }

/-- Modelled from the spec: `Scheduler.review_card` of §4.1 (the module
`src/pyfsrs/scheduler.py` is imported by `review.py` but absent from the
repository).  Rejects `now` strictly earlier than `last_review`; otherwise
applies the transition and returns the updated card with the review log
capturing the pre-update snapshot. -/
def review_card (cfg : SchedulerConfig) (card : Card) (rating : Rating)
    (now : ℤ) : Except SchedError (Card × ReviewLog) :=
  match card.last_review with
  | some lr =>
    if now < lr then .error .nonMonotonicReview
    else .ok (scheduleTransition cfg card rating now,
      ⟨rating, now, card.state, card.due⟩)
  | none =>
    .ok (scheduleTransition cfg card rating now, ⟨rating, now, card.state, card.due⟩)

/-- Concrete scheduler configuration used to witness the spec-modelled
scheduler theorem: two learning steps, one relearning step, constant
formulas. -/
def sampleSchedulerConfig : SchedulerConfig :=
  { desired_retention := 9 / 10
    enable_fuzzing := true
    fuzz_factor := 1
    learning_steps := [60, 600]
    relearning_steps := [600]
    initial_stability := fun _ => 1
    initial_difficulty := fun _ => 5
    lapse_stability := fun s => s / 2
    lapse_difficulty := fun d => d + 1
    next_stability := fun s _ _ _ => s + 1
    next_difficulty := fun d _ => d
    next_interval := fun _ => 86400 }

/-- Claim C1 (counterexample): a Card in Learning state whose `step` field is
null satisfies every constraint the claim enumerates (stability and
difficulty null, due a datetime, last_review null), yet the
`to_dict` / `from_dict` round trip returns a card whose `step` is `0`, not
null: the `Card` constructor invoked by `from_dict` replaces a missing step
by `0` for Learning cards. -/
theorem c1_roundtrip_counterexample :
    from_dict (to_dict ⟨1, State.Learning, none, none, none, 0, none⟩) =
      some ⟨1, State.Learning, some 0, none, none, 0, none⟩ ∧
    (⟨1, State.Learning, some 0, none, none, 0, none⟩ : Card) ≠
      ⟨1, State.Learning, none, none, none, 0, none⟩ := by
  constructor
  · rfl
  · decide

/-- Claim C1 (amended): for every Card whose stability is a positive real or
null, whose difficulty lies in its bounded range (1 to 10) or is null, and
whose step is non-null whenever the state is Learning (as holds for every
card the constructor or `from_dict` produces), deserializing the dictionary
produced by `Card.to_dict` via `Card.from_dict` yields the original card
field for field. -/
theorem c1_roundtrip (c : Card)
    (hstab : ∀ q : ℚ, c.stability = some q → 0 < q)
    (hdiff : ∀ q : ℚ, c.difficulty = some q → 1 ≤ q ∧ q ≤ 10)
    (hstep : c.state = State.Learning → c.step ≠ none) :
    from_dict (to_dict c) = some c := by
  obtain ⟨cid, st, step, stab, diff, due, lr⟩ := c
  have hst : State.ofValue st.value = some st := by cases st <;> rfl
  simp only [to_dict, from_dict, readStep, readOptFloat, readOptIso, Value.pyIntCast,
    Value.truthy, Value.pyFloatCast, Value.fromIso, hst, Option.bind_eq_bind,
    Option.some_bind]
  cases step with
  | none =>
    have hL : st ≠ State.Learning := by
      intro h
      exact hstep h rfl
    cases stab with
    | none =>
      cases diff with
      | none =>
        cases lr with
        | none => simp [cardInit, hL]
        | some t => simp [cardInit, hL]
      | some qd =>
        have hd0 : qd ≠ 0 := by
          have := hdiff qd rfl
          intro h
          rw [h] at this
          norm_num at this
        cases lr with
        | none => simp [cardInit, hL, hd0]
        | some t => simp [cardInit, hL, hd0]
    | some qs =>
      have hs0 : qs ≠ 0 := ne_of_gt (hstab qs rfl)
      cases diff with
      | none =>
        cases lr with
        | none => simp [cardInit, hL, hs0]
        | some t => simp [cardInit, hL, hs0]
      | some qd =>
        have hd0 : qd ≠ 0 := by
          have := hdiff qd rfl
          intro h
          rw [h] at this
          norm_num at this
        cases lr with
        | none => simp [cardInit, hL, hs0, hd0]
        | some t => simp [cardInit, hL, hs0, hd0]
  | some n =>
    cases stab with
    | none =>
      cases diff with
      | none =>
        cases lr with
        | none => simp [cardInit]
        | some t => simp [cardInit]
      | some qd =>
        have hd0 : qd ≠ 0 := by
          have := hdiff qd rfl
          intro h
          rw [h] at this
          norm_num at this
        cases lr with
        | none => simp [cardInit, hd0]
        | some t => simp [cardInit, hd0]
    | some qs =>
      have hs0 : qs ≠ 0 := ne_of_gt (hstab qs rfl)
      cases diff with
      | none =>
        cases lr with
        | none => simp [cardInit, hs0]
        | some t => simp [cardInit, hs0]
      | some qd =>
        have hd0 : qd ≠ 0 := by
          have := hdiff qd rfl
          intro h
          rw [h] at this
          norm_num at this
        cases lr with
        | none => simp [cardInit, hs0, hd0]
        | some t => simp [cardInit, hs0, hd0]

/-- Witness for the amended claim C1 at a concrete Review card. -/
theorem c1_roundtrip_witness :
    from_dict (to_dict ⟨5, State.Review, none, some 2, some 3, 7, some 6⟩) =
      some ⟨5, State.Review, none, some 2, some 3, 7, some 6⟩ :=
  c1_roundtrip ⟨5, State.Review, none, some 2, some 3, 7, some 6⟩
    (by intro q h; injection h with h; subst h; norm_num)
    (by intro q h; injection h with h; subst h; norm_num)
    (by intro h; exact absurd h (by decide))

/-- Claim C7: a Card constructed with all-default arguments at time `now`
has state `Learning`, step `0`, due `now`, and absent stability, difficulty
and last_review. -/
theorem c7_fresh_card_defaults (now : ℤ) :
    (cardInit now none State.Learning none none none none none).state = State.Learning ∧
    (cardInit now none State.Learning none none none none none).step = some 0 ∧
    (cardInit now none State.Learning none none none none none).due = now ∧
    (cardInit now none State.Learning none none none none none).stability = none ∧
    (cardInit now none State.Learning none none none none none).difficulty = none ∧
    (cardInit now none State.Learning none none none none none).last_review = none := by
  simp [cardInit]

/-- Claim C8 (counterexample): the constructor called with state
`Relearning` and no step produces a card whose state is `Relearning` and
whose step is null — refuting that step is present iff the state is
Learning or Relearning (the constructor defaults step only for Learning). -/
theorem c8_counterexample :
    (cardInit 0 none State.Relearning none none none none none).state = State.Relearning ∧
    (cardInit 0 none State.Relearning none none none none none).step = none := by
  decide

/-- Claim C8 (amended): for a Card produced by the constructor, step is null
iff the state is not Learning and no step was supplied — so a Learning card
always has step present, while for Relearning and Review the constructor
merely preserves the supplied step; and every card `from_dict` produces in
Learning state has step present. -/
theorem c8_step_presence :
    (∀ (now : ℤ) (cid : Option ℤ) (st : State) (stp : Option ℤ) (stab diff : Option ℚ)
        (due lr : Option ℤ),
        (cardInit now cid st stp stab diff due lr).step = none ↔
          st ≠ State.Learning ∧ stp = none) ∧
    (∀ (d : CardDict) (c : Card), from_dict d = some c →
        c.state = State.Learning → c.step ≠ none) := by
  constructor
  · intro now cid st stp stab diff due lr
    by_cases hL : st = State.Learning
    · subst hL
      cases stp <;> simp [cardInit]
    · cases stp <;> simp [cardInit, hL]
  · intro d c h hL
    rw [from_dict] at h
    simp only [Option.bind_eq_bind, Option.bind_eq_some, Option.some.injEq] at h
    obtain ⟨cid, h1, sv, h2, st, h3, stp, h4, stab, h5, diff, h6, due, h7, lr, h8, h9⟩ := h
    subst h9
    rw [cardInit] at hL ⊢
    simp only at hL ⊢
    subst hL
    cases stp <;> simp

/-- Witness for the amended claim C8: a Learning card coming out of
`from_dict` has its step present. -/
theorem c8_step_presence_witness :
    (⟨1, State.Learning, some 0, none, none, 1, none⟩ : Card).step ≠ none :=
  c8_step_presence.2 (to_dict ⟨1, State.Learning, some 0, none, none, 1, none⟩)
    ⟨1, State.Learning, some 0, none, none, 1, none⟩ rfl rfl

/-- Claim C4: for every audio payload whose size exceeds the 1000 KB
ceiling, `transcribe_audio` returns the TooLarge error locally, with zero
invocations of the remote transcription service; for payloads at or under
the ceiling the size check passes. -/
theorem c4_audio_size_ceiling (remote : ℕ → Except String String) (audioLen : ℕ) :
    (1000 < (audioLen : ℚ) / 1024 →
      (transcribe_audio remote audioLen).1 =
          TranscribeOutcome.tooLarge "audio file exceeds the size limit" ∧
        (transcribe_audio remote audioLen).2 = 0) ∧
    ((audioLen : ℚ) / 1024 ≤ 1000 → (validate_audio_size audioLen).1 = true) := by
  constructor
  · intro h
    have hv : validate_audio_size audioLen =
        (false, some "audio file exceeds the size limit") := by
      rw [validate_audio_size, if_pos]
      exact h
    rw [transcribe_audio, hv]
    exact ⟨rfl, rfl⟩
  · intro h
    rw [validate_audio_size, if_neg]
    exact not_lt.mpr h

/-- Witness for claim C4: a 2000 KB payload is rejected locally with no
remote call, and a 500 KB payload passes the size check. -/
theorem c4_audio_size_ceiling_witness :
    ((transcribe_audio (fun _ => Except.ok "text") 2048000).1 =
        TranscribeOutcome.tooLarge "audio file exceeds the size limit" ∧
      (transcribe_audio (fun _ => Except.ok "text") 2048000).2 = 0) ∧
    (validate_audio_size 512000).1 = true :=
  ⟨(c4_audio_size_ceiling (fun _ => Except.ok "text") 2048000).1 (by norm_num),
   (c4_audio_size_ceiling (fun _ => Except.ok "text") 512000).2 (by norm_num)⟩

/-- Claim C5: `get_due_card` returns at most one row; every returned row
belongs to the learner, has type JPWord and is due (due earlier than now);
and whenever some due row exists, exactly one row is returned and it has
the earliest due among the learner's due rows. -/
theorem c5_get_due_card (userId now : ℤ) (table : List Row) :
    (get_due_card userId now table).length ≤ 1 ∧
    (∀ c ∈ get_due_card userId now table,
        c.user_id = userId ∧ c.typ = "JPWord" ∧ ∃ d, c.due = some d ∧ d < now) ∧
    (∀ r ∈ table, matchesDueQuery userId now r = true →
      (get_due_card userId now table).length = 1 ∧
      ∀ c ∈ get_due_card userId now table,
        c ∈ table ∧ matchesDueQuery userId now c = true ∧
        ∀ rr ∈ table, matchesDueQuery userId now rr = true → dueLe c rr) := by
  refine ⟨?_, ?_, ?_⟩
  · exact List.length_take_le 1 _
  · intro c hc
    have hc1 : c ∈ (table.filter (matchesDueQuery userId now)).insertionSort dueLe :=
      List.mem_of_mem_take hc
    have hc2 : c ∈ table.filter (matchesDueQuery userId now) :=
      (List.mem_insertionSort dueLe).mp hc1
    have hm : matchesDueQuery userId now c = true := (List.mem_filter.mp hc2).2
    rw [matchesDueQuery] at hm
    simp only [Bool.and_eq_true, beq_iff_eq] at hm
    refine ⟨hm.1.1, hm.1.2, ?_⟩
    cases hdue : c.due with
    | none => rw [hdue] at hm; simp at hm
    | some d =>
      rw [hdue] at hm
      simp only [decide_eq_true_eq] at hm
      exact ⟨d, rfl, hm.2⟩
  · intro r hr hm
    have hrf : r ∈ table.filter (matchesDueQuery userId now) :=
      List.mem_filter.mpr ⟨hr, hm⟩
    have hne : (table.filter (matchesDueQuery userId now)).insertionSort dueLe ≠ [] := by
      intro hnil
      have := (List.mem_insertionSort dueLe).mpr hrf
      rw [hnil] at this
      exact absurd this (List.not_mem_nil r)
    obtain ⟨c0, rest, hcons⟩ := List.exists_cons_of_ne_nil hne
    have htake : get_due_card userId now table = [c0] := by
      rw [get_due_card, hcons]
      rfl
    refine ⟨by rw [htake]; rfl, ?_⟩
    intro c hc
    rw [htake] at hc
    have hceq : c = c0 := by
      simpa using hc
    subst hceq
    have hc0mem : c ∈ table.filter (matchesDueQuery userId now) := by
      apply (List.mem_insertionSort dueLe).mp
      rw [hcons]
      exact List.mem_cons_self c rest
    refine ⟨(List.mem_filter.mp hc0mem).1, (List.mem_filter.mp hc0mem).2, ?_⟩
    intro rr hrr hmrr
    have hrrs : rr ∈ (table.filter (matchesDueQuery userId now)).insertionSort dueLe :=
      (List.mem_insertionSort dueLe).mpr (List.mem_filter.mpr ⟨hrr, hmrr⟩)
    rw [hcons] at hrrs
    rcases List.mem_cons.mp hrrs with heq | hmem
    · subst heq
      exact le_refl _
    · have hsorted : List.Sorted dueLe
          ((table.filter (matchesDueQuery userId now)).insertionSort dueLe) :=
        List.sorted_insertionSort dueLe _
      rw [hcons] at hsorted
      exact List.rel_of_sorted_cons hsorted rr hmem

/-- Witness for claim C5 on a concrete three-row table: exactly one card is
returned and the returned card is this learner's earliest due one. -/
theorem c5_get_due_card_witness :
    (get_due_card 1 100 [⟨10, 1, "JPWord", "a", 1, some 0, none, none, some 50, none⟩,
        ⟨11, 1, "JPWord", "b", 1, some 0, none, none, some 20, none⟩,
        ⟨12, 2, "JPWord", "c", 1, some 0, none, none, some 5, none⟩]).length = 1 ∧
    get_due_card 1 100 [⟨10, 1, "JPWord", "a", 1, some 0, none, none, some 50, none⟩,
        ⟨11, 1, "JPWord", "b", 1, some 0, none, none, some 20, none⟩,
        ⟨12, 2, "JPWord", "c", 1, some 0, none, none, some 5, none⟩] =
      [⟨11, 1, "JPWord", "b", 1, some 0, none, none, some 20, none⟩] := by
  constructor
  · exact ((c5_get_due_card 1 100 _).2.2
      ⟨10, 1, "JPWord", "a", 1, some 0, none, none, some 50, none⟩
      (by decide) (by decide)).1
  · decide

/-- One execution of the answer-state entry logic issues at most one
grading call. -/
theorem answerEntry_gradeCalls_le_one (transcriber : ℕ → String)
    (grader : String → String) (s : SessionState) :
    (answerEntry transcriber grader s).gradeCalls ≤ 1 := by
  rw [answerEntry]
  split
  · exact Nat.zero_le 1
  · split
    · split
      · exact Nat.zero_le 1
      · exact le_refl 1
    · exact le_refl 1

/-- After one execution of the entry logic, either the cached-review flag is
set or the execution was a no-op (flag already set, or run stopped by the
size check). -/
theorem answerEntry_progress (transcriber : ℕ → String)
    (grader : String → String) (s : SessionState) :
    (answerEntry transcriber grader s).state.has_ai_review = true ∨
      (answerEntry transcriber grader s).state = s ∧
        (answerEntry transcriber grader s).gradeCalls = 0 := by
  rw [answerEntry]
  split
  · right
    exact ⟨rfl, rfl⟩
  · split
    · split
      · right
        exact ⟨rfl, rfl⟩
      · left
        rfl
    · left
      rfl

/-- When the cached-review flag is set, the entry logic is the identity with
no collaborator calls. -/
theorem answerEntry_flagged (transcriber : ℕ → String) (grader : String → String)
    (s : SessionState) (h : s.has_ai_review = true) :
    answerEntry transcriber grader s = ⟨s, 0, 0, false⟩ := by
  rw [answerEntry, if_pos h]

/-- Iterated entries starting from a state with the flag set issue no
grading calls. -/
theorem answerEntryGradeCalls_flagged (transcriber : ℕ → String)
    (grader : String → String) (n : ℕ) (s : SessionState)
    (h : s.has_ai_review = true) :
    answerEntryGradeCalls transcriber grader n s = 0 := by
  induction n generalizing s with
  | zero => rfl
  | succ n ih =>
    simp only [answerEntryGradeCalls, answerEntry_flagged transcriber grader s h]
    simpa using ih s h

/-- Claim C3: executing the session's Answer-state entry logic any number of
times without a new answer submission issues at most one grading call, and
every entry with the cached-review flag already set performs no grading and
no transcription call at all. -/
theorem c3_grading_idempotent (transcriber : ℕ → String)
    (grader : String → String) :
    (∀ (n : ℕ) (s : SessionState),
        answerEntryGradeCalls transcriber grader n s ≤ 1) ∧
    (∀ s : SessionState, s.has_ai_review = true →
        answerEntry transcriber grader s = ⟨s, 0, 0, false⟩) := by
  refine ⟨?_, answerEntry_flagged transcriber grader⟩
  intro n s
  induction n generalizing s with
  | zero => exact Nat.zero_le 1
  | succ n ih =>
    simp only [answerEntryGradeCalls]
    rcases answerEntry_progress transcriber grader s with hflag | ⟨hstate, hcalls⟩
    · rw [answerEntryGradeCalls_flagged transcriber grader n _ hflag]
      simpa using answerEntry_gradeCalls_le_one transcriber grader s
    · rw [hcalls, hstate]
      simpa using ih s

/-- Witness for claim C3: three redraws of the answer state from a fresh
session issue at most one grading call, and an entry on a state whose flag
is set is a no-op. -/
theorem c3_grading_idempotent_witness :
    answerEntryGradeCalls (fun _ => "voice") (fun _ => "review") 3
        ⟨some RState.answer, none, some "ans", none, none, false, none, none⟩ ≤ 1 ∧
    answerEntry (fun _ => "voice") (fun _ => "review")
        ⟨some RState.answer, none, some "ans", none, some "review", true, none, none⟩ =
      ⟨⟨some RState.answer, none, some "ans", none, some "review", true, none, none⟩,
        0, 0, false⟩ :=
  ⟨(c3_grading_idempotent (fun _ => "voice") (fun _ => "review")).1 3
      ⟨some RState.answer, none, some "ans", none, none, false, none, none⟩,
    (c3_grading_idempotent (fun _ => "voice") (fun _ => "review")).2
      ⟨some RState.answer, none, some "ans", none, some "review", true, none, none⟩ rfl⟩

/-- Claim C2 (counterexample): a concrete Submitting step whose persistence
write fails reports the failure toast but wipes the session context —
`review_state`, `current_card` and `your_answer` all end up deleted, exactly
as on success, so the next run starts a fresh cycle instead of retrying only
the write. -/
theorem c2_counterexample :
    submittingStep (fun c _ _ => c) (fun _ => (false, "Failed to update card")) 0
        ⟨some RState.submitting,
          some ⟨⟨10, 1, "JPWord", "w", 1, some 0, none, none, some 5, none⟩,
            ⟨10, State.Learning, some 0, none, none, 5, none⟩, "w", ⟨"q", "a", "h"⟩⟩,
          some "ans", none, some "review text", true, some RatingLabel.good, some 3⟩ =
      Except.ok (⟨none, none, none, none, some "review text", true,
          some RatingLabel.good, some 2⟩, Toast.failure "Failed to update card") := by
  rfl

/-- Claim C2 (amended): when the persistence write fails, the Submitting
step reports the error (failure toast carrying the persistence message),
but then unconditionally resets the review context — `review_state`,
`current_card` and `your_answer` are deleted just as on success (while the
`ai_review` and `review_difficulty` keys themselves survive), so a retry
restarts the cycle from the card fetch rather than re-attempting only the
write. -/
theorem c2_persistence_failure_resets (reviewFn : Card → Rating → ℤ → Card)
    (msg : String) (now : ℤ) (s : SessionState) (label : RatingLabel)
    (cc : CurrentCard) (hl : s.review_difficulty = some label)
    (hc : s.current_card = some cc) :
    submittingStep reviewFn (fun _ => (false, msg)) now s =
      Except.ok ({ s with
          due_review_count := some (updatedDueReviewCount s.due_review_count)
          review_state := none
          current_card := none
          your_answer := none }, Toast.failure msg) := by
  rw [submittingStep, hl, hc]
  rfl

/-- Witness for the amended claim C2 at a concrete session state. -/
theorem c2_persistence_failure_resets_witness :
    submittingStep (fun c _ _ => c) (fun _ => (false, "Error updating card")) 0
        ⟨some RState.submitting,
          some ⟨⟨11, 1, "JPWord", "v", 1, some 0, none, none, some 5, none⟩,
            ⟨11, State.Learning, some 0, none, none, 5, none⟩, "v", ⟨"q", "a", "h"⟩⟩,
          some "mine", none, some "graded", true, some RatingLabel.hard, some 1⟩ =
      Except.ok (⟨none, none, none, none, some "graded", true,
          some RatingLabel.hard, some 0⟩, Toast.failure "Error updating card") :=
  c2_persistence_failure_resets (fun c _ _ => c) "Error updating card" 0
    ⟨some RState.submitting,
      some ⟨⟨11, 1, "JPWord", "v", 1, some 0, none, none, some 5, none⟩,
        ⟨11, State.Learning, some 0, none, none, 5, none⟩, "v", ⟨"q", "a", "h"⟩⟩,
      some "mine", none, some "graded", true, some RatingLabel.hard, some 1⟩
    RatingLabel.hard
    ⟨⟨11, 1, "JPWord", "v", 1, some 0, none, none, some 5, none⟩,
      ⟨11, State.Learning, some 0, none, none, 5, none⟩, "v", ⟨"q", "a", "h"⟩⟩
    rfl rfl

/-- Claim C10: every completed Submitting step sets the due-review count to
the previous count minus one clamped at zero (an absent count reads as 0),
so the displayed remaining-card count is never negative. -/
theorem c10_due_count_clamped (reviewFn : Card → Rating → ℤ → Card)
    (persist : PersistPayload → Bool × String) (now : ℤ) (s : SessionState)
    (s2 : SessionState) (t : Toast)
    (h : submittingStep reviewFn persist now s = Except.ok (s2, t)) :
    s2.due_review_count = some (max (s.due_review_count.getD 0 - 1) 0) ∧
    ∀ m : ℤ, s2.due_review_count = some m → 0 ≤ m := by
  rw [submittingStep] at h
  cases hl : s.review_difficulty with
  | none =>
    rw [hl] at h
    exact absurd h (by simp)
  | some label =>
    rw [hl] at h
    cases hc : s.current_card with
    | none =>
      rw [hc] at h
      exact absurd h (by simp)
    | some cc =>
      rw [hc] at h
      simp only [Except.ok.injEq, Prod.mk.injEq] at h
      obtain ⟨hs2, -⟩ := h
      subst hs2
      refine ⟨rfl, ?_⟩
      intro m hm
      simp only [updatedDueReviewCount, Option.some.injEq] at hm
      subst hm
      exact le_max_right _ 0

/-- Witness for claim C10: a Submitting step run with the count already at
zero yields count zero, not a negative number. -/
theorem c10_due_count_clamped_witness :
    (⟨none, none, none, none, some "graded", true, some RatingLabel.good,
        some 0⟩ : SessionState).due_review_count =
      some (max ((some (0 : ℤ)).getD 0 - 1) 0) ∧
    ∀ m : ℤ, (⟨none, none, none, none, some "graded", true, some RatingLabel.good,
        some 0⟩ : SessionState).due_review_count = some m → 0 ≤ m :=
  c10_due_count_clamped (fun c _ _ => c) (fun _ => (true, "Card updated successfully")) 0
    ⟨some RState.submitting,
      some ⟨⟨12, 1, "JPWord", "u", 1, some 0, none, none, some 5, none⟩,
        ⟨12, State.Learning, some 0, none, none, 5, none⟩, "u", ⟨"q", "a", "h"⟩⟩,
      some "mine", none, some "graded", true, some RatingLabel.good, some 0⟩
    ⟨none, none, none, none, some "graded", true, some RatingLabel.good, some 0⟩
    Toast.completed rfl

/-- Claim C6: a run of the review page for a learner with zero due cards
shows the completion message and stops — a normal nothing-due signal, not
an error — leaving the session state untouched, and any number of further
runs issues zero collaborator calls (no question generation, no
transcription, no grading, no persistence write) until the session is
externally reset. -/
theorem c6_nothing_due (qgen : String → QA) (transcriber : ℕ → String)
    (grader : String → String) (reviewFn : Card → Rating → ℤ → Card)
    (persist : PersistPayload → Bool × String) (now : ℤ)
    (evtsSeq : ℕ → UserEvents) (s : SessionState)
    (h : s.review_state = none) :
    (∀ evts : UserEvents,
        scriptRun qgen transcriber grader reviewFn persist now [] evts s =
          (s, ⟨0, 0, 0, 0⟩, RunOutcome.nothingDue)) ∧
    (∀ n : ℕ, scriptRunTotalCalls qgen transcriber grader reviewFn persist now []
        evtsSeq n s = 0) := by
  have hrun : ∀ evts : UserEvents,
      scriptRun qgen transcriber grader reviewFn persist now [] evts s =
        (s, ⟨0, 0, 0, 0⟩, RunOutcome.nothingDue) := by
    intro evts
    rw [scriptRun, h]
  refine ⟨hrun, ?_⟩
  intro n
  induction n with
  | zero => rfl
  | succ n ih =>
    simp only [scriptRunTotalCalls, hrun]
    simpa using ih

/-- Witness for claim C6: one nothing-due run and two consecutive runs on a
fresh session with an empty fetch, all without collaborator calls. -/
theorem c6_nothing_due_witness :
    scriptRun (fun _ => ⟨"q", "a", "h"⟩) (fun _ => "t") (fun _ => "g")
        (fun c _ _ => c) (fun _ => (true, "ok")) 0 []
        ⟨none, none, false, false, RatingLabel.good⟩
        ⟨none, none, none, none, none, false, none, none⟩ =
      (⟨none, none, none, none, none, false, none, none⟩, ⟨0, 0, 0, 0⟩,
        RunOutcome.nothingDue) ∧
    scriptRunTotalCalls (fun _ => ⟨"q", "a", "h"⟩) (fun _ => "t") (fun _ => "g")
        (fun c _ _ => c) (fun _ => (true, "ok")) 0 []
        (fun _ => ⟨none, none, false, false, RatingLabel.good⟩) 2
        ⟨none, none, none, none, none, false, none, none⟩ = 0 :=
  ⟨(c6_nothing_due (fun _ => ⟨"q", "a", "h"⟩) (fun _ => "t") (fun _ => "g")
      (fun c _ _ => c) (fun _ => (true, "ok")) 0
      (fun _ => ⟨none, none, false, false, RatingLabel.good⟩)
      ⟨none, none, none, none, none, false, none, none⟩ rfl).1
      ⟨none, none, false, false, RatingLabel.good⟩,
    (c6_nothing_due (fun _ => ⟨"q", "a", "h"⟩) (fun _ => "t") (fun _ => "g")
      (fun c _ _ => c) (fun _ => (true, "ok")) 0
      (fun _ => ⟨none, none, false, false, RatingLabel.good⟩)
      ⟨none, none, none, none, none, false, none, none⟩ rfl).2 2⟩

/-- Entries of a list of nonnegative integers read with default 0 are
nonnegative. -/
theorem list_getD_nonneg : ∀ (l : List ℤ) (i : ℕ), (∀ d ∈ l, 0 ≤ d) →
    0 ≤ l.getD i 0
  | [], _, _ => le_refl 0
  | x :: _, 0, h => h x (List.mem_cons_self _ _)
  | _ :: l, i + 1, h =>
    list_getD_nonneg l i (fun d hd => h d (List.mem_cons_of_mem _ hd))

/-- A nonnegative interval stays nonnegative under the multiplicative fuzz
with a nonnegative factor. -/
theorem fuzzedInterval_nonneg (cfg : SchedulerConfig) (i : ℤ)
    (hfz : 0 ≤ cfg.fuzz_factor) (hi : 0 ≤ i) : 0 ≤ fuzzedInterval cfg i := by
  rw [fuzzedInterval]
  split
  · refine Int.le_floor.mpr ?_
    push_cast
    exact mul_nonneg hfz (by exact_mod_cast hi)
  · exact hi

/-- Every branch of the spec-modelled transition table schedules at or
after `now`, given nonnegative step durations, nonnegative computed
intervals and a nonnegative fuzz factor. -/
theorem scheduleTransition_due_ge (cfg : SchedulerConfig) (card : Card)
    (rating : Rating) (now : ℤ)
    (hls : ∀ d ∈ cfg.learning_steps, 0 ≤ d)
    (hrs : ∀ d ∈ cfg.relearning_steps, 0 ≤ d)
    (hni : ∀ s : ℚ, 0 ≤ cfg.next_interval s)
    (hfz : 0 ≤ cfg.fuzz_factor) :
    now ≤ (scheduleTransition cfg card rating now).due := by
  obtain ⟨cid, st, stp, stab, diff, due, lr⟩ := card
  have h1 := fun i => list_getD_nonneg cfg.learning_steps i hls
  have h2 := fun i => list_getD_nonneg cfg.relearning_steps i hrs
  have h3 := fun s : ℚ =>
    fuzzedInterval_nonneg cfg (cfg.next_interval s) hfz (hni s)
  cases st <;> cases rating <;> simp only [scheduleTransition]
  · linarith [h1 0]
  · linarith [h1 (stp.getD 0).toNat]
  · split
    · dsimp only
      linarith [h1 ((stp.getD 0).toNat + 1)]
    · dsimp only
      linarith [hni (cfg.initial_stability Rating.Good)]
  · linarith [hni (cfg.initial_stability Rating.Easy)]
  · linarith [h2 0]
  · linarith [h3 (cfg.next_stability (stab.getD (cfg.initial_stability Rating.Hard))
      (diff.getD (cfg.initial_difficulty Rating.Hard)) (now - lr.getD now) Rating.Hard)]
  · linarith [h3 (cfg.next_stability (stab.getD (cfg.initial_stability Rating.Good))
      (diff.getD (cfg.initial_difficulty Rating.Good)) (now - lr.getD now) Rating.Good)]
  · linarith [h3 (cfg.next_stability (stab.getD (cfg.initial_stability Rating.Easy))
      (diff.getD (cfg.initial_difficulty Rating.Easy)) (now - lr.getD now) Rating.Easy)]
  · linarith [h2 0]
  · split
    · dsimp only
      linarith [h2 ((stp.getD 0).toNat + 1)]
    · dsimp only
      linarith [hni (stab.getD (cfg.initial_stability Rating.Hard))]
  · split
    · dsimp only
      linarith [h2 ((stp.getD 0).toNat + 1)]
    · dsimp only
      linarith [hni (stab.getD (cfg.initial_stability Rating.Good))]
  · linarith [hni (stab.getD (cfg.initial_stability Rating.Easy))]

/-- Claim C9 (spec-modelled): for every card, rating and timestamp `now`,
a successful `review_card` returns a card with `due` at or after `now` —
the scheduler never schedules into the past — under the spec's constraints
that the configured step durations are nonnegative durations, the
retention-driven interval is nonnegative, and the bounded fuzz factor is
nonnegative. -/
theorem c9_never_schedules_past (cfg : SchedulerConfig) (card : Card)
    (rating : Rating) (now : ℤ)
    (hls : ∀ d ∈ cfg.learning_steps, 0 ≤ d)
    (hrs : ∀ d ∈ cfg.relearning_steps, 0 ≤ d)
    (hni : ∀ s : ℚ, 0 ≤ cfg.next_interval s)
    (hfz : 0 ≤ cfg.fuzz_factor)
    (c2 : Card) (log : ReviewLog)
    (h : review_card cfg card rating now = Except.ok (c2, log)) :
    now ≤ c2.due := by
  rw [review_card] at h
  cases hlr : card.last_review with
  | none =>
    rw [hlr] at h
    dsimp only at h
    simp only [Except.ok.injEq, Prod.mk.injEq] at h
    obtain ⟨hc, -⟩ := h
    subst hc
    exact scheduleTransition_due_ge cfg card rating now hls hrs hni hfz
  | some t =>
    rw [hlr] at h
    dsimp only at h
    by_cases hlt : now < t
    · rw [if_pos hlt] at h
      exact absurd h (by simp)
    · rw [if_neg hlt] at h
      simp only [Except.ok.injEq, Prod.mk.injEq] at h
      obtain ⟨hc, -⟩ := h
      subst hc
      exact scheduleTransition_due_ge cfg card rating now hls hrs hni hfz

/-- Witness for claim C9: a fresh Learning card rated Good at time 0 under
the sample configuration is scheduled 600 units ahead, at or after now. -/
theorem c9_never_schedules_past_witness :
    review_card sampleSchedulerConfig ⟨1, State.Learning, some 0, none, none, 0, none⟩
        Rating.Good 0 =
      Except.ok (⟨1, State.Learning, some 1, none, none, 600, some 0⟩,
        ⟨Rating.Good, 0, State.Learning, 0⟩) ∧
    (0 : ℤ) ≤ (⟨1, State.Learning, some 1, none, none, 600, some 0⟩ : Card).due := by
  constructor
  · rfl
  · exact c9_never_schedules_past sampleSchedulerConfig
      ⟨1, State.Learning, some 0, none, none, 0, none⟩ Rating.Good 0
      (by decide) (by decide) (fun _ => by norm_num [sampleSchedulerConfig])
      (by norm_num [sampleSchedulerConfig])
      ⟨1, State.Learning, some 1, none, none, 600, some 0⟩
      ⟨Rating.Good, 0, State.Learning, 0⟩ rfl

end JVD
